import Mathlib

/-!
Shallow embedding of the exception module of pyatlasclient
(atlasclient/exceptions.py): the error hierarchy (ClientError, Timeout,
Failed, HttpError and its declared concrete subclasses), the status-code
registry built from the declared subclasses of HttpError, and the
handle_response dispatch function.
-/

namespace Atlasclient

/-- Python truthiness defaulting `x or default` for an optional string
argument: None and the empty string are falsy. -/
def pyOrStr : Option String → String → String
  | none, d => d
  | some s, d => if s = "" then d else s

/-- Python truthiness defaulting `x or default` for an optional integer
argument: None and 0 are falsy. -/
def pyOrNat : Option Nat → Nat → Nat
  | none, d => d
  | some n, d => if n = 0 then d else n

/-- Python str applied to an optional string: str of None is "None". -/
def pyStrOpt : Option String → String
  | none => "None"
  | some s => s

/-- Split a character list at each occurrence of the two-character
sequence percent-s, keeping the literal pieces in between. -/
def splitPercentS : List Char → List String
  | [] => [("")]
  | '%' :: 's' :: rest => ("") :: splitPercentS rest
  | c :: rest =>
    match splitPercentS rest with
    | [] => [String.singleton c]
    | p :: ps => (String.singleton c ++ p) :: ps

/-- Interleave the literal pieces of a format string with the argument
list. All call sites in this module supply exactly as many arguments as
the format has conversions, matching the Python percent operator. -/
def interleave : List String → List String → String
  | [], _ => ("")
  | p :: _, [] => p
  | p :: ps, a :: rest => p ++ (a ++ interleave ps rest)

/-- Python percent-formatting restricted to the percent-s conversions the
source uses: `fmt % args`. -/
def pyFormat (fmt : String) (args : List String) : String :=
  interleave (splitPercentS fmt.data) args

/-- ClientError values: the base exception class of the library. Carries
only a message. -/
structure ClientError where
  message : String
deriving DecidableEq

/-- Class attribute `ClientError.message`. -/
def ClientError.classMessage : String := "Unknown Error"

/-- `ClientError.__init__`: the message argument defaults, by truthiness,
to the class-level message. -/
def ClientError.init (message : Option String) : ClientError :=
  ⟨pyOrStr message ClientError.classMessage⟩

/-- `ClientError.__str__` (the logging call it performs is a write to the
process log sink and does not affect the returned string). -/
def ClientError.str (e : ClientError) : String :=
  pyFormat ("Unexpected client-side error: %s") [e.message]

/-- Timeout values: a timeout in seconds plus a message. -/
structure Timeout where
  timeout : Nat
  message : String
deriving DecidableEq

/-- Class attribute `Timeout.message`. -/
def Timeout.classMessage : String := "Operation timeout exceeded"

/-- `Timeout.__init__`. -/
def Timeout.init (timeout : Nat) (message : Option String) : Timeout :=
  ⟨timeout, pyOrStr message Timeout.classMessage⟩

/-- `Timeout.__str__`. -/
def Timeout.str (e : Timeout) : String :=
  pyFormat ("Timed out after %s seconds: %s") [toString e.timeout, e.message]

/-- The model collaborator consumed by Failed: exposes a type name (the
Python class name of the model) and an identifier. -/
structure Model where
  typeName : String
  identifier : String
deriving DecidableEq

/-- Failed values: a model reference plus a message. -/
structure Failed where
  model : Model
  message : String
deriving DecidableEq

/-- Class attribute `Failed.message`. -/
def Failed.classMessage : String := "Operation failed to complete"

/-- `Failed.__init__`. -/
def Failed.init (model : Model) (message : Option String) : Failed :=
  ⟨model, pyOrStr message Failed.classMessage⟩

/-- `Failed.__str__`. -/
def Failed.str (e : Failed) : String :=
  pyFormat ("Failure detected for %s/%s: %s")
    [e.model.typeName, e.model.identifier, e.message]

/-- The HttpError class together with its declared concrete subclasses,
as identities of the dynamic class of an instance. -/
inductive HttpClass where
  | HttpError
  | BadRequest
  | Unauthorized
  | Forbidden
  | NotFound
  | MethodNotAllowed
  | Conflict
  | RateLimitExceeded
  | ServerError
  | MethodNotImplemented
  | ServerUnavailable
deriving DecidableEq

/-- The class-level code attribute of each class (HttpError default 500,
each subclass overriding it with its literal status code). -/
def classCode : HttpClass → Nat
  | .HttpError => 500
  | .BadRequest => 400
  | .Unauthorized => 401
  | .Forbidden => 403
  | .NotFound => 404
  | .MethodNotAllowed => 405
  | .Conflict => 409
  | .RateLimitExceeded => 429
  | .ServerError => 500
  | .MethodNotImplemented => 501
  | .ServerUnavailable => 503

/-- The class-level message attribute of each class. -/
def classMessage : HttpClass → String
  | .HttpError => "Unknown Error"
  | .BadRequest => "Bad request"
  | .Unauthorized => "Unauthorized"
  | .Forbidden => "Forbidden"
  | .NotFound => "Not found"
  | .MethodNotAllowed => "Method Not Allowed"
  | .Conflict => "Conflict"
  | .RateLimitExceeded => "Rate limit"
  | .ServerError => "Internal Server Error"
  | .MethodNotImplemented => "Not Implemented"
  | .ServerUnavailable => "Service Unavailable"

/-- HttpError instance values: the dynamic class of the instance plus the
six attributes set by the shared constructor. -/
structure HttpError where
  cls : HttpClass
  code : Nat
  message : String
  details : Option String
  url : Option String
  method : Option String
  retry_after : Option String
deriving DecidableEq

/-- `HttpError.__init__`, shared by every subclass (none overrides it);
`cls` is the dynamic class of the instance, so the truthiness defaults for
code and message resolve against the most specific class attributes. The
other four attributes are stored as passed, with no defaulting. -/
def HttpError.init (cls : HttpClass) (code : Option Nat) (message : Option String)
    (details : Option String) (url : Option String) (method : Option String)
    (retry_after : Option String) : HttpError :=
  ⟨cls, pyOrNat code (classCode cls), pyOrStr message (classMessage cls),
    details, url, method, retry_after⟩

/-- `HttpError.__str__`, shared by every subclass. -/
def HttpError.str (e : HttpError) : String :=
  pyFormat ("HTTP request failed for %s %s: %s %s: %s")
    [pyStrOpt e.method, pyStrOpt e.url, e.message, toString e.code, pyStrOpt e.details]

/-- `HttpError.__subclasses__()`: the declared direct subclasses of
HttpError, in declaration order. -/
def httpSubclasses : List HttpClass :=
  [.BadRequest, .Unauthorized, .Forbidden, .NotFound, .MethodNotAllowed,
   .Conflict, .RateLimitExceeded, .ServerError, .MethodNotImplemented,
   .ServerUnavailable]

/-- `_status_to_exception_type`: the registry pairing each declared
subclass with its class-level code, in insertion order. -/
def status_to_exception_type : List (Nat × HttpClass) :=
  httpSubclasses.map (fun c => (classCode c, c))

/-- Python dict get with a default: a dict built from a pair sequence
keeps the last insertion for a repeated key, hence the reversed lookup. -/
def dictGetD (d : List (Nat × HttpClass)) (k : Nat) (dflt : HttpClass) : HttpClass :=
  (d.reverse.lookup k).getD dflt

/-- The request attribute of a response: the method and url it exposes. -/
structure Request where
  method : String
  url : String
deriving DecidableEq

/-- A response-like value as consumed by handle_response. The headers are
a case-insensitive mapping (the CaseInsensitiveDict of the external
requests library), modelled as an association list in insertion order;
none models an absent headers attribute. -/
structure Response where
  status_code : Nat
  text : String
  headers : Option (List (String × String))
  request : Request
deriving DecidableEq

/-- The lowercased key a CaseInsensitiveDict indexes by, written as a
character list (string lowercasing modelled character-wise). -/
def lowerKey (s : String) : List Char :=
  s.data.map Char.toLower

/-- Case-insensitive key membership in the headers mapping, as the `in`
operator behaves on a CaseInsensitiveDict. -/
def ciContains (hs : List (String × String)) (k : String) : Bool :=
  hs.any (fun p => lowerKey p.1 == lowerKey k)

/-- Case-insensitive get on the headers mapping: a repeated
(case-insensitively equal) key keeps its last inserted value. -/
def ciGet (hs : List (String × String)) (k : String) : Option String :=
  ((hs.filter (fun p => lowerKey p.1 == lowerKey k)).getLast?).map Prod.snd

/-- The retry_after kwarg of the raise in handle_response: present only
when the headers mapping is truthy (not absent, not empty) and contains
the retry-after key. -/
def retryAfterHeader : Option (List (String × String)) → Option String
  | none => none
  | some hs =>
    if hs.isEmpty then none
    else if ciContains hs ("retry-after") then ciGet hs ("retry-after")
    else none

/-- `handle_response`: return normally on a status code below 400,
otherwise raise the registered variant (or the HttpError base when the
code is unregistered) constructed with the kwargs the source passes. -/
def handle_response (response : Response) : Except HttpError Unit :=
  if response.status_code < 400 then Except.ok ()
  else
    Except.error (HttpError.init
      (dictGetD status_to_exception_type response.status_code HttpClass.HttpError)
      (some response.status_code) none (some response.text)
      (some response.request.url) (some response.request.method)
      (retryAfterHeader response.headers))

/-- State-passing form of handle_response: the body only reads fields of
the response (status_code, request, text, headers) and performs no
assignment to it, so the state it leaves behind is the input response. -/
def handle_response_frame (response : Response) : Except HttpError Unit × Response :=
  (handle_response response, response)

/-- Transcribed from the table in section 3 of the spec: the variant the
spec registers for each status code (the refinement target for the
dispatch claims; everything unlisted falls back to the base). -/
def specVariant : Nat → HttpClass
  | 400 => .BadRequest
  | 401 => .Unauthorized
  | 403 => .Forbidden
  | 404 => .NotFound
  | 405 => .MethodNotAllowed
  | 409 => .Conflict
  | 429 => .RateLimitExceeded
  | 500 => .ServerError
  | 501 => .MethodNotImplemented
  | 503 => .ServerUnavailable
  | _ => .HttpError

/-- A concrete successful response. -/
def respOk : Response :=
  ⟨200, "ok", none, ⟨"GET", "http://example.com/a"⟩⟩

/-- A concrete response with an unregistered error status code. -/
def respTeapot : Response :=
  ⟨418, "teapot", some [], ⟨"GET", "http://example.com/t"⟩⟩

/-- A concrete not-found response. -/
def resp404 : Response :=
  ⟨404, "missing", none, ⟨"GET", "http://example.com/x"⟩⟩

/-- A concrete rate-limited response carrying a Retry-After header in
mixed casing. -/
def respRetry : Response :=
  ⟨429, "slow down", some [("Content-Type", "text/plain"), ("Retry-After", "120")],
    ⟨"POST", "http://example.com/r"⟩⟩

theorem handle_response_lt (r : Response) (h : r.status_code < 400) :
    handle_response r = Except.ok () := by
  simp [handle_response, h]

theorem handle_response_ge (r : Response) (h : ¬ r.status_code < 400) :
    handle_response r = Except.error (HttpError.init
      (dictGetD status_to_exception_type r.status_code HttpClass.HttpError)
      (some r.status_code) none (some r.text) (some r.request.url)
      (some r.request.method) (retryAfterHeader r.headers)) := by
  simp [handle_response, h]

theorem lookup_eq_none_of_forall (k : Nat) (l : List (Nat × HttpClass))
    (h : ∀ p ∈ l, p.1 ≠ k) : l.lookup k = none := by
  induction l with
  | nil => rfl
  | cons p t ih =>
    have hp : p.1 ≠ k := h p (List.mem_cons_self p t)
    have hbeq : (k == p.1) = false := by
      simp only [beq_eq_false_iff_ne, ne_eq]
      exact fun hk => hp hk.symm
    simp only [List.lookup, hbeq]
    exact ih (fun q hq => h q (List.mem_cons_of_mem p hq))

/-- C1: for every status code in the section-3 table (400, 401, 403, 404,
405, 409, 429, 500, 501, 503), handle_response on a response with that
status code raises exactly the variant the table registers for that code,
and the raised error carries code equal to that status code. -/
theorem c1_mapped_code_dispatch (r : Response)
    (h : r.status_code ∈ [400, 401, 403, 404, 405, 409, 429, 500, 501, 503]) :
    ∃ e : HttpError, handle_response r = Except.error e ∧
      e.cls = specVariant r.status_code ∧ e.code = r.status_code := by
  simp only [List.mem_cons, List.not_mem_nil, or_false] at h
  rcases h with h | h | h | h | h | h | h | h | h | h
  all_goals
    exact ⟨_, handle_response_ge r (by rw [h]; decide), by rw [h]; rfl, by rw [h]; rfl⟩

/-- C1 witness at a concrete 404 response. -/
theorem c1_mapped_code_dispatch_witness :
    ∃ e : HttpError, handle_response resp404 = Except.error e ∧
      e.cls = specVariant 404 ∧ e.code = 404 :=
  c1_mapped_code_dispatch resp404 (by decide)

/-- C2: handle_response returns normally exactly when the status code is
below 400, and on every status code at least 400 it raises an HttpError
value instead of returning. -/
theorem c2_ok_iff_below_400 (r : Response) :
    (handle_response r = Except.ok () ↔ r.status_code < 400) ∧
    (400 ≤ r.status_code → ∃ e : HttpError, handle_response r = Except.error e) := by
  by_cases h : r.status_code < 400
  · exact ⟨⟨fun _ => h, fun _ => handle_response_lt r h⟩, fun hge => absurd h (by omega)⟩
  · refine ⟨⟨fun heq => ?_, fun hlt => absurd hlt h⟩, fun hge => ⟨_, handle_response_ge r h⟩⟩
    rw [handle_response_ge r h] at heq
    exact Except.noConfusion heq

/-- C2 witness at concrete responses with status 200 and 404. -/
theorem c2_ok_iff_below_400_witness :
    handle_response respOk = Except.ok () ∧
    ∃ e : HttpError, handle_response resp404 = Except.error e :=
  ⟨(c2_ok_iff_below_400 respOk).1.mpr (by decide),
   (c2_ok_iff_below_400 resp404).2 (by decide)⟩

/-- C3: an unregistered status code at least 400 raises the generic
HttpError base kind with code equal to the status code. -/
theorem c3_unmapped_fallback (r : Response) (h4 : 400 ≤ r.status_code)
    (hu : ∀ c ∈ httpSubclasses, classCode c ≠ r.status_code) :
    ∃ e : HttpError, handle_response r = Except.error e ∧
      e.cls = HttpClass.HttpError ∧ e.code = r.status_code := by
  have hnone : status_to_exception_type.reverse.lookup r.status_code = none := by
    apply lookup_eq_none_of_forall
    intro p hp
    rw [List.mem_reverse] at hp
    simp only [status_to_exception_type, List.mem_map] at hp
    obtain ⟨c, hc, rfl⟩ := hp
    exact hu c hc
  refine ⟨_, handle_response_ge r (by omega), ?_, ?_⟩
  · show dictGetD status_to_exception_type r.status_code HttpClass.HttpError = HttpClass.HttpError
    unfold dictGetD
    rw [hnone]
    rfl
  · show pyOrNat (some r.status_code) _ = r.status_code
    have h0 : ¬ r.status_code = 0 := by omega
    simp [pyOrNat, h0]

/-- C3 witness at a concrete 418 response. -/
theorem c3_unmapped_fallback_witness :
    ∃ e : HttpError, handle_response respTeapot = Except.error e ∧
      e.cls = HttpClass.HttpError ∧ e.code = 418 :=
  c3_unmapped_fallback respTeapot (by decide) (by decide)

/-- C4: on every status at least 400, the raised error carries details
equal to the response text, method equal to the request method and url
equal to the request url, exactly as supplied by the response. -/
theorem c4_context_propagation (r : Response) (h : 400 ≤ r.status_code) :
    ∃ e : HttpError, handle_response r = Except.error e ∧
      e.details = some r.text ∧ e.method = some r.request.method ∧
      e.url = some r.request.url :=
  ⟨_, handle_response_ge r (by omega), rfl, rfl, rfl⟩

/-- C4 witness at a concrete 404 response. -/
theorem c4_context_propagation_witness :
    ∃ e : HttpError, handle_response resp404 = Except.error e ∧
      e.details = some ("missing") ∧ e.method = some ("GET") ∧
      e.url = some ("http://example.com/x") :=
  c4_context_propagation resp404 (by decide)

theorem isEmpty_false_of_ciContains (hs : List (String × String)) (k : String)
    (hc : ciContains hs k = true) : hs.isEmpty = false := by
  cases hs with
  | nil => simp [ciContains] at hc
  | cons a t => rfl

theorem ciGet_isSome_of_ciContains (hs : List (String × String)) (k : String)
    (hc : ciContains hs k = true) : (ciGet hs k).isSome = true := by
  simp only [ciContains, List.any_eq_true] at hc
  obtain ⟨p, hp, hpk⟩ := hc
  have hmem : p ∈ hs.filter (fun q => lowerKey q.1 == lowerKey k) :=
    List.mem_filter.mpr ⟨hp, hpk⟩
  have hne : hs.filter (fun q => lowerKey q.1 == lowerKey k) ≠ [] :=
    List.ne_nil_of_mem hmem
  simp only [ciGet]
  rw [Option.isSome_iff_ne_none, ne_eq]
  intro hmap
  rw [Option.map_eq_none'] at hmap
  rw [List.getLast?_eq_none_iff] at hmap
  exact hne hmap

/-- C5: on the raising path, retry_after equals the case-insensitively
looked-up retry-after header value when the headers contain that key
under any casing, and stays unset (none) when the headers mapping is
absent, empty, or has no such key. -/
theorem c5_retry_after_header (r : Response) (h : 400 ≤ r.status_code) :
    ∃ e : HttpError, handle_response r = Except.error e ∧
      (∀ hs, r.headers = some hs → ciContains hs ("retry-after") = true →
        e.retry_after = ciGet hs ("retry-after") ∧
        (ciGet hs ("retry-after")).isSome = true) ∧
      ((∀ hs, r.headers = some hs → ciContains hs ("retry-after") = false) →
        e.retry_after = none) := by
  refine ⟨_, handle_response_ge r (by omega), ?_, ?_⟩
  · intro hs hh hc
    refine ⟨?_, ciGet_isSome_of_ciContains hs _ hc⟩
    show retryAfterHeader r.headers = ciGet hs ("retry-after")
    rw [hh]
    simp [retryAfterHeader, isEmpty_false_of_ciContains hs _ hc, hc]
  · intro habs
    show retryAfterHeader r.headers = none
    cases hh : r.headers with
    | none => rfl
    | some hs =>
      have hf := habs hs hh
      simp [retryAfterHeader, hf]

/-- C5 witness: a concrete 429 response whose Retry-After header, in
mixed casing, is picked up with value 120. -/
theorem c5_retry_after_header_witness :
    ∃ e : HttpError, handle_response respRetry = Except.error e ∧
      e.retry_after = some ("120") := by
  obtain ⟨e, he, hpres, h0⟩ := c5_retry_after_header respRetry (by decide)
  refine ⟨e, he, ?_⟩
  have hp := hpres [("Content-Type", "text/plain"), ("Retry-After", "120")] rfl (by decide)
  rw [hp.1]
  rfl

/-- C6: constructing any variant with code and message omitted resolves
both from the class attributes of the most specific class being
constructed; in particular NotFound with no arguments has code 404 and
message Not found, not the 500 and Unknown Error of the base. -/
theorem c6_class_defaults (cls : HttpClass) :
    (HttpError.init cls none none none none none none).code = classCode cls ∧
    (HttpError.init cls none none none none none none).message = classMessage cls ∧
    (HttpError.init HttpClass.NotFound none none none none none none).code = 404 ∧
    (HttpError.init HttpClass.NotFound none none none none none none).message = "Not found" :=
  ⟨rfl, rfl, rfl, rfl⟩

/-- C7: rendering each kind is a pure function of its fields reproducing
the section 4.1 template of its kind exactly, with the fields substituted
for the placeholders; in particular a Timeout of 30 seconds with the
message omitted renders as stated. -/
theorem c7_render_templates (c : ClientError) (t : Timeout) (f : Failed) (e : HttpError) :
    ClientError.str c = "Unexpected client-side error: " ++ c.message ∧
    Timeout.str t = "Timed out after " ++ toString t.timeout ++ " seconds: " ++ t.message ∧
    Timeout.str (Timeout.init 30 none) = "Timed out after 30 seconds: Operation timeout exceeded" ∧
    Failed.str f = "Failure detected for " ++ f.model.typeName ++ "/" ++ f.model.identifier
      ++ ": " ++ f.message ∧
    HttpError.str e = "HTTP request failed for " ++ pyStrOpt e.method ++ " " ++ pyStrOpt e.url
      ++ ": " ++ e.message ++ " " ++ toString e.code ++ ": " ++ pyStrOpt e.details := by
  refine ⟨?_, ?_, by rfl, ?_, ?_⟩
  · unfold ClientError.str pyFormat
    rw [show splitPercentS (("Unexpected client-side error: %s").data)
      = ["Unexpected client-side error: ", ""] from rfl]
    simp [interleave, String.append_empty]
  · unfold Timeout.str pyFormat
    rw [show splitPercentS (("Timed out after %s seconds: %s").data)
      = ["Timed out after ", " seconds: ", ""] from rfl]
    simp [interleave, String.append_empty, String.append_assoc]
  · unfold Failed.str pyFormat
    rw [show splitPercentS (("Failure detected for %s/%s: %s").data)
      = ["Failure detected for ", "/", ": ", ""] from rfl]
    simp [interleave, String.append_empty, String.append_assoc]
  · unfold HttpError.str pyFormat
    rw [show splitPercentS (("HTTP request failed for %s %s: %s %s: %s").data)
      = ["HTTP request failed for ", " ", ": ", " ", ": ", ""] from rfl]
    simp [interleave, String.append_empty, String.append_assoc]

/-- C8 counterexample: the source declares ten direct subclasses of
HttpError, not twelve. -/
theorem c8_not_twelve_variants : httpSubclasses.length ≠ 12 ∧ httpSubclasses.length = 10 := by
  decide

/-- C8 (amended): exactly ten concrete variants are declared, each bound
to one status code; the registry built from the declared direct
subclasses is collision-free and its key list is exactly the list of the
literal class codes, namely 400, 401, 403, 404, 405, 409, 429, 500, 501,
503, and each such code looks up the variant that declares it. -/
theorem c8_registry_shape :
    httpSubclasses.length = 10 ∧
    (status_to_exception_type.map Prod.fst).Nodup ∧
    status_to_exception_type.map Prod.fst = httpSubclasses.map classCode ∧
    status_to_exception_type.map Prod.fst
      = [400, 401, 403, 404, 405, 409, 429, 500, 501, 503] ∧
    (∀ c ∈ httpSubclasses,
      dictGetD status_to_exception_type (classCode c) HttpClass.HttpError = c) := by
  decide

/-- C9: the call leaves the response unchanged on both the success path
and the raising path: the state left behind by the state-passing form is
the input response, field for field, and the outcome is exactly that of
the dispatch itself. -/
theorem c9_response_unchanged (r : Response) :
    (handle_response_frame r).2 = r ∧
    (handle_response_frame r).2.status_code = r.status_code ∧
    (handle_response_frame r).2.text = r.text ∧
    (handle_response_frame r).2.headers = r.headers ∧
    (handle_response_frame r).2.request.method = r.request.method ∧
    (handle_response_frame r).2.request.url = r.request.url ∧
    (handle_response_frame r).1 = handle_response r :=
  ⟨rfl, rfl, rfl, rfl, rfl, rfl, rfl⟩

/-- C10: an explicitly supplied falsy argument behaves exactly like an
omitted one in every constructor: an empty message falls back to the
class-level default message, and an HttpError code of 0 falls back to
the class default 500. -/
theorem c10_falsy_like_omitted (cls : HttpClass) (t : Nat) (m : Model) :
    ClientError.init (some ("")) = ClientError.init none ∧
    (ClientError.init (some (""))).message = "Unknown Error" ∧
    Timeout.init t (some ("")) = Timeout.init t none ∧
    Failed.init m (some ("")) = Failed.init m none ∧
    HttpError.init cls (some 0) (some ("")) none none none none
      = HttpError.init cls none none none none none none ∧
    (HttpError.init HttpClass.HttpError (some 0) none none none none none).code = 500 :=
  ⟨rfl, rfl, rfl, rfl, rfl, rfl⟩

end Atlasclient
